import Mathlib

/-!
Verification development for the voxel-world subsystem of the repository
(`src/js/world/World.js`, `src/js/Game.js`, `src/js/core/SettingsManager.js`).

The JavaScript source is shallowly embedded:
* JS `Map` objects keyed by `"x,y,z"` / `"cx,cz"` strings are modelled as
  functions into `Option` (the string encodings of integer triples/pairs are
  injective, so the key change is faithful);
* numbers appearing in world data are exact (block coordinates are integers,
  box corners are rationals in the tests we model); the one genuinely
  floating-point, transcendental computation in the source — the
  `Math.sin`/`Math.cos` combination inside `generateHeightMap` — is kept as an
  abstract parameter `noiseBase : ℤ → ℤ → ℤ` of the generation context (it is
  a deterministic function of the world coordinates in the source and never
  consults the seed);
* calls to the unseeded `Math.random()` are modelled as explicit oracle
  arguments (`jitterDraw`, `treeDraw`), one draw per generated column, which
  matches the source's one-call-per-column usage;
* scene-graph / mesh bookkeeping (geometry disposal, shadows, materials) is
  dropped: it has no effect on the world state the claims are about.
-/

/-- World-space integer block position `(x, y, z)` (the source's
`"x,y,z"` map key). -/
abbrev Pos : Type := ℤ × ℤ × ℤ

/-- A block entry stored in a chunk's `blocks` array: the mesh's integer
position together with its `userData.blockType`. -/
structure Block where
  x : ℤ
  y : ℤ
  z : ℤ
  blockType : String
deriving DecidableEq

/-- A chunk record as returned by `World.generateChunk`: its chunk coordinate,
its block list, and the `loaded` flag (the merged mesh is rendering-only and
is not modelled). -/
structure Chunk where
  position : ℤ × ℤ
  blocks : List Block
  loaded : Bool
deriving DecidableEq

/-- The block-type registry entry of `ResourceManager` (`SettingsManager.js`);
only the fields the world code reads are kept. -/
structure BlockTypeInfo where
  id : ℤ
  name : String
  transparent : Bool
  solid : Bool
deriving DecidableEq

/-- The `ResourceManager.blockTypes` map built in `initBlockTypes`. -/
def blockTypes : String → Option BlockTypeInfo := fun s =>
  if s = "air" then some ⟨0, "Air", true, false⟩
  else if s = "stone" then some ⟨1, "Stone", false, true⟩
  else if s = "grass" then some ⟨2, "Grass", false, true⟩
  else if s = "dirt" then some ⟨3, "Dirt", false, true⟩
  else if s = "sand" then some ⟨4, "Sand", false, true⟩
  else if s = "water" then some ⟨5, "Water", true, false⟩
  else if s = "wood" then some ⟨6, "Wood", false, true⟩
  else if s = "leaves" then some ⟨7, "Leaves", true, true⟩
  else none

/-- `ResourceManager.getBlockType`: unknown names fall back to the `air`
entry (never `null`). -/
def getBlockType (name : String) : BlockTypeInfo :=
  (blockTypes name).getD ⟨0, "Air", true, false⟩

/-- `ResourceManager.createBlock`: returns `null` (here `none`) exactly when
the resolved block type is `Air` — i.e. for `"air"` itself and for every
unregistered name; otherwise builds a mesh at the given position.  `World.createBlock`
then stamps `userData.blockType`, which is the `Block` record we keep. -/
def createBlock (blockType : String) (x y z : ℤ) : Option Block :=
  if (getBlockType blockType).name = "Air" then none
  else some ⟨x, y, z, blockType⟩

/-- Rational 3-vector standing in for `THREE.Vector3` in the collision code. -/
structure Vec3 where
  x : ℚ
  y : ℚ
  z : ℚ
deriving DecidableEq

instance : Add Vec3 := ⟨fun a b => ⟨a.x + b.x, a.y + b.y, a.z + b.z⟩⟩

/-- Axis-aligned bounding box with `min`/`max` corners. -/
structure Box where
  min : Vec3
  max : Vec3
deriving DecidableEq

/-- `World.checkBoxCollision`: strict-inequality overlap test; boxes that
merely touch (share a face, edge or corner) do not collide. -/
def checkBoxCollision (box1 box2 : Box) : Bool :=
  if box1.max.x ≤ box2.min.x ∨ box1.min.x ≥ box2.max.x then false
  else if box1.max.y ≤ box2.min.y ∨ box1.min.y ≥ box2.max.y then false
  else if box1.max.z ≤ box2.min.z ∨ box1.min.z ≥ box2.max.z then false
  else true

/-- The per-axis overlap computed at the top of
`World.calculateResolutionVector` (x axis). -/
def xOverlap (playerBox blockBox : Box) : ℚ :=
  min (playerBox.max.x - blockBox.min.x) (blockBox.max.x - playerBox.min.x)

/-- Per-axis overlap of `World.calculateResolutionVector` (y axis). -/
def yOverlap (playerBox blockBox : Box) : ℚ :=
  min (playerBox.max.y - blockBox.min.y) (blockBox.max.y - playerBox.min.y)

/-- Per-axis overlap of `World.calculateResolutionVector` (z axis). -/
def zOverlap (playerBox blockBox : Box) : ℚ :=
  min (playerBox.max.z - blockBox.min.z) (blockBox.max.z - playerBox.min.z)

/-- `World.calculateResolutionVector`: picks x when x is the strict minimum,
y when y is the strict minimum, and otherwise z; sign pushes the player away
from the block. -/
def calculateResolutionVector (playerBox blockBox : Box) : Vec3 :=
  if xOverlap playerBox blockBox < yOverlap playerBox blockBox ∧
      xOverlap playerBox blockBox < zOverlap playerBox blockBox then
    ⟨if playerBox.max.x > blockBox.max.x then xOverlap playerBox blockBox
      else -xOverlap playerBox blockBox, 0, 0⟩
  else if yOverlap playerBox blockBox < xOverlap playerBox blockBox ∧
      yOverlap playerBox blockBox < zOverlap playerBox blockBox then
    ⟨0, if playerBox.max.y > blockBox.max.y then yOverlap playerBox blockBox
      else -yOverlap playerBox blockBox, 0⟩
  else
    ⟨0, 0, if playerBox.max.z > blockBox.max.z then zOverlap playerBox blockBox
      else -zOverlap playerBox blockBox⟩

/-- Formalisation of the SPEC's words (not of the source) for the
minimum-translation vector: "the axis with least penetration — ties broken by
checking x, then y, then z in that fixed order". -/
def specLeastAxisVector (playerBox blockBox : Box) : Vec3 :=
  if xOverlap playerBox blockBox ≤ yOverlap playerBox blockBox ∧
      xOverlap playerBox blockBox ≤ zOverlap playerBox blockBox then
    ⟨if playerBox.max.x > blockBox.max.x then xOverlap playerBox blockBox
      else -xOverlap playerBox blockBox, 0, 0⟩
  else if yOverlap playerBox blockBox ≤ zOverlap playerBox blockBox then
    ⟨0, if playerBox.max.y > blockBox.max.y then yOverlap playerBox blockBox
      else -yOverlap playerBox blockBox, 0⟩
  else
    ⟨0, 0, if playerBox.max.z > blockBox.max.z then zOverlap playerBox blockBox
      else -zOverlap playerBox blockBox⟩

/-- The world state owned by the second `World` class: the chunk map keyed by
`"cx,cz"`, the block index keyed by `"x,y,z"`, and the seed.  (Rendering
handles and the derived `collidableObjects` cache are not modelled.) -/
structure WorldState where
  chunks : ℤ × ℤ → Option Chunk
  blockData : Pos → Option String
  seed : ℤ

/-- `World.getBlockAt`: block-index lookup defaulting to `"air"`. -/
def getBlockAt (w : WorldState) (x y z : ℤ) : String :=
  (w.blockData (x, y, z)).getD "air"

/-- `World.isSolid`: registry lookup on the block at the position. -/
def isSolid (w : WorldState) (x y z : ℤ) : Bool :=
  (getBlockType (getBlockAt w x y z)).solid

/-- `World.getCollisionBox`: unit cube at the integer position when solid. -/
def getCollisionBox (w : WorldState) (x y z : ℤ) : Option Box :=
  if isSolid w x y z then
    some ⟨⟨x, y, z⟩, ⟨x + 1, y + 1, z + 1⟩⟩
  else none

/-- The list of integers `lo, lo+1, …, hi-1` (a `for (i = lo; i < hi; i++)`
loop). -/
def intRange (lo hi : ℤ) : List ℤ :=
  (List.range (hi - lo).toNat).map (fun (i : ℕ) => lo + (i : ℤ))

/-- One entry of the collision list built by `World.checkBlockCollisions`. -/
structure Collision where
  position : Pos
  blockType : String
  box : Box
deriving DecidableEq

/-- `World.checkBlockCollisions`: scan every integer cell of the player's box
padded by one block, collecting the solid cells whose unit cube overlaps the
player box. -/
def checkBlockCollisions (w : WorldState) (playerBox : Box) : List Collision :=
  (intRange ⌊playerBox.min.x - 1⌋ ⌈playerBox.max.x + 1⌉).flatMap fun x =>
    (intRange ⌊playerBox.min.y - 1⌋ ⌈playerBox.max.y + 1⌉).flatMap fun y =>
      (intRange ⌊playerBox.min.z - 1⌋ ⌈playerBox.max.z + 1⌉).filterMap fun z =>
        if isSolid w x y z then
          match getCollisionBox w x y z with
          | some blockBox =>
            if checkBoxCollision playerBox blockBox then
              some ⟨(x, y, z), getBlockAt w x y z, blockBox⟩
            else none
          | none => none
        else none

/-- Result record of `World.resolveCollisions`. -/
structure ResolveResult where
  position : Vec3
  onGround : Bool
  colliding : Bool
deriving DecidableEq

/-- `World.resolveCollisions`: with no collision, pass through the box's
bottom-centre position; otherwise accumulate one resolution vector per
colliding block and report `onGround` when some resolution pushes up and
dominates the horizontal components.  The `velocity` argument is received
and ignored, exactly as in the source. -/
def resolveCollisions (w : WorldState) (playerBox : Box) (velocity : Vec3) :
    ResolveResult :=
  let _ := velocity
  let collisions := checkBlockCollisions w playerBox
  let base : Vec3 :=
    ⟨(playerBox.min.x + playerBox.max.x) / 2, playerBox.min.y,
      (playerBox.min.z + playerBox.max.z) / 2⟩
  if collisions = [] then ⟨base, false, false⟩
  else
    let acc := collisions.foldl
      (fun (pg : Vec3 × Bool) col =>
        let res := calculateResolutionVector playerBox col.box
        (pg.1 + res,
          pg.2 || (decide (0 < res.y) && decide (|res.x| < |res.y|)
            && decide (|res.z| < |res.y|))))
      (base, false)
    ⟨acc.1, acc.2, true⟩

/-- Override a function-backed map at one key (a JS `Map.set`). -/
def mapSet (m : Pos → Option String) (p : Pos) (v : String) :
    Pos → Option String :=
  fun q => if q = p then some v else m q

/-- Delete one key from a function-backed map (a JS `Map.delete`). -/
def mapDelete (m : Pos → Option String) (p : Pos) : Pos → Option String :=
  fun q => if q = p then none else m q

/-- Apply a list of `(position, blockType)` writes left to right (later
writes shadow earlier ones, matching `Map.set` order). -/
def applyWrites (writes : List (Pos × String)) (m : Pos → Option String) :
    Pos → Option String :=
  writes.foldl (fun acc pk => mapSet acc pk.1 pk.2) m

/-- Replace a chunk entry in the chunk map. -/
def chunkSet (m : ℤ × ℤ → Option Chunk) (c : ℤ × ℤ) (v : Chunk) :
    ℤ × ℤ → Option Chunk :=
  fun d => if d = c then some v else m d

/-- `World.placeBlock` (coordinates already floored to integers): fail when
the cell is occupied, when `ResourceManager.createBlock` yields `null`
(`"air"` and unknown kinds), or when the containing chunk is not resident;
otherwise push the mesh into the chunk and set the block index. -/
def placeBlock (w : WorldState) (blockType : String) (x y z : ℤ) :
    Bool × WorldState :=
  if getBlockAt w x y z ≠ "air" then (false, w)
  else
    match createBlock blockType x y z with
    | none => (false, w)
    | some b =>
      let ck : ℤ × ℤ := (Int.fdiv x 16, Int.fdiv z 16)
      match w.chunks ck with
      | some c =>
        (true,
          { w with
            chunks := chunkSet w.chunks ck { c with blocks := c.blocks ++ [b] },
            blockData := mapSet w.blockData (x, y, z) blockType })
      | none => (false, w)

/-- `World.removeBlock` (coordinates already floored to integers): fail when
the cell is air, when the containing chunk is not resident, or when the
chunk's block list holds no mesh at that exact position (`findIndex = -1`);
otherwise splice the mesh out and delete the block-index entry. -/
def removeBlock (w : WorldState) (x y z : ℤ) : Bool × WorldState :=
  if getBlockAt w x y z = "air" then (false, w)
  else
    let ck : ℤ × ℤ := (Int.fdiv x 16, Int.fdiv z 16)
    match w.chunks ck with
    | none => (false, w)
    | some c =>
      match c.blocks.findIdx? (fun b => b.x = x && b.y = y && b.z = z) with
      | none => (false, w)
      | some i =>
        (true,
          { w with
            chunks := chunkSet w.chunks ck { c with blocks := c.blocks.eraseIdx i },
            blockData := mapDelete w.blockData (x, y, z) })

/-- Generation context.  `seed` is the world seed field (never consulted by
the generation code in the source).  `noiseBase` abstracts the deterministic
`Math.sin`/`Math.cos` float pipeline of `generateHeightMap` — the value
`Math.floor(terrainHeightMin + combinedNoise * (terrainHeightMax -
terrainHeightMin))`, a pure function of the world coordinates.  `jitterDraw`
and `treeDraw` are the per-column unseeded `Math.random()` draws (one each
per `(x, z)` column, matching the source's one call per column) as rationals
in `[0, 1)`. -/
structure GenCtx where
  seed : ℤ
  noiseBase : ℤ → ℤ → ℤ
  jitterDraw : ℤ → ℤ → ℚ
  treeDraw : ℤ → ℤ → ℚ

/-- One column's final height in `World.generateHeightMap`: the noise-based
base plus the random jitter `Math.floor(Math.random() * 3) - 1`. -/
def columnHeight (ctx : GenCtx) (worldX worldZ : ℤ) : ℤ :=
  ctx.noiseBase worldX worldZ + (⌊ctx.jitterDraw worldX worldZ * 3⌋ - 1)

/-- `World.generateHeightMap`: the 16×16 grid of column heights of a chunk. -/
def generateHeightMap (ctx : GenCtx) (chunkX chunkZ : ℤ) : List (List ℤ) :=
  (List.range 16).map fun x =>
    (List.range 16).map fun z =>
      columnHeight ctx (chunkX * 16 + (x : ℤ)) (chunkZ * 16 + (z : ℤ))

/-- `World.determineBlockType`: the strict vertical ordering of a generated
column (note the source places `"stone"` at `y = 0`, under a comment calling
it bedrock). -/
def determineBlockType (x y z surfaceHeight : ℤ) : String :=
  let _ := (x, z)
  if y = 0 then "stone"
  else if y < surfaceHeight - 4 then "stone"
  else if y < surfaceHeight then "dirt"
  else if y = surfaceHeight then "grass"
  else "air"

/-- `World.shouldGenerateTree`: `Math.random() < 0.02`; the coordinates are
received and ignored. -/
def shouldGenerateTree (ctx : GenCtx) (x y z : ℤ) : Bool :=
  let _ := (x, y, z)
  decide (ctx.treeDraw x z < 2 / 100)

/-- The tree template's `getBlock` (relative coordinates).  The source
compares `Math.sqrt(x*x + (y-5)*(y-5) + z*z) ≤ 2.5`; on integer offsets this
is exactly `4 * (x² + (y-5)² + z²) ≤ 25`. -/
def treeGetBlock (x y z : ℤ) : String :=
  if x = 0 ∧ z = 0 ∧ y < 4 then "wood"
  else if 3 ≤ y ∧ y ≤ 6 ∧ 4 * (x ^ 2 + (y - 5) ^ 2 + z ^ 2) ≤ 25 then "leaves"
  else "air"

/-- The `(position, blockType)` writes performed by
`World.generateStructure('tree', x, y, z)`, in loop order
(`dx`, then `dy`, then `dz`), skipping template air. -/
def treeWrites (x y z : ℤ) : List (Pos × String) :=
  (intRange (-2) 3).flatMap fun dx =>
    (intRange 0 6).flatMap fun dy =>
      (intRange (-2) 3).filterMap fun dz =>
        let bt := treeGetBlock dx dy dz
        if bt = "air" then none
        else
          match createBlock bt (x + dx) (y + dy) (z + dz) with
          | some _ => some ((x + dx, y + dy, z + dz), bt)
          | none => none

/-- The block-index writes performed while generating one chunk in
`World.generateChunk`: for each column, the non-air terrain blocks from `y = 0`
to `255`, followed by a tree stamp when the tree draw fires. -/
def chunkWrites (ctx : GenCtx) (chunkX chunkZ : ℤ) : List (Pos × String) :=
  (List.range 16).flatMap fun x =>
    (List.range 16).flatMap fun z =>
      let wx := chunkX * 16 + (x : ℤ)
      let wz := chunkZ * 16 + (z : ℤ)
      let h := columnHeight ctx wx wz
      ((List.range 256).filterMap fun y =>
        let bt := determineBlockType wx (y : ℤ) wz h
        if bt = "air" then none
        else
          match createBlock bt wx (y : ℤ) wz with
          | some _ => some ((wx, (y : ℤ), wz), bt)
          | none => none)
      ++ (if shouldGenerateTree ctx wx h wz then treeWrites wx h wz else [])

/-- `World.generateChunk`: record the chunk's blocks and apply its
block-index writes. -/
def generateChunk (ctx : GenCtx) (w : WorldState) (chunkX chunkZ : ℤ) :
    Chunk × WorldState :=
  let ws := chunkWrites ctx chunkX chunkZ
  (⟨(chunkX, chunkZ), ws.map (fun pk => ⟨pk.1.1, pk.1.2.1, pk.1.2.2, pk.2⟩), true⟩,
    { w with blockData := applyWrites ws w.blockData })

/-- The square of chunk coordinates within the render distance of the centre
chunk (the keys added to `chunksToKeep`). -/
def squareCoords (centerX centerZ : ℤ) (r : ℕ) : List (ℤ × ℤ) :=
  (intRange (-(r : ℤ)) ((r : ℤ) + 1)).flatMap fun dx =>
    (intRange (-(r : ℤ)) ((r : ℤ) + 1)).map fun dz =>
      (centerX + dx, centerZ + dz)

/-- One iteration of the generation loop of `World.loadChunksAroundPosition`:
skip a resident chunk (`continue`), otherwise generate it, insert it into the
chunk map and append it to `newlyLoadedChunks`. -/
def loadStep (ctx : GenCtx) (sa : WorldState × List Chunk) (c : ℤ × ℤ) :
    WorldState × List Chunk :=
  if (sa.1.chunks c).isSome then sa
  else
    let cw := generateChunk ctx sa.1 c.1 c.2
    ({ cw.2 with chunks := chunkSet cw.2.chunks c cw.1 }, sa.2 ++ [cw.1])

/-- The generation pass of `World.loadChunksAroundPosition`: visit the square's
chunk coordinates in loop order, skipping resident chunks. -/
def loadFold (ctx : GenCtx) (coords : List (ℤ × ℤ))
    (start : WorldState × List Chunk) : WorldState × List Chunk :=
  coords.foldl (loadStep ctx) start

/-- The eviction pass of `World.loadChunksAroundPosition`: delete from the
chunk map every resident coordinate not in `chunksToKeep`.  Only the chunk map
is pruned — the block index is untouched, as in the source. -/
def evictOutside (coords : List (ℤ × ℤ)) (w : WorldState) : WorldState :=
  { w with chunks := fun c => if c ∈ coords then w.chunks c else none }

/-- `World.loadChunksAroundPosition` with render distance `r`: generate every
missing chunk of the square around the position's chunk, then evict every
resident chunk outside the square.  Returns the new state and the list of
newly loaded chunks. -/
def loadChunksAroundPosition (ctx : GenCtx) (r : ℕ) (w : WorldState)
    (px pz : ℚ) : WorldState × List Chunk :=
  let coords := squareCoords ⌊px / (16 * 1)⌋ ⌊pz / (16 * 1)⌋ r
  let gen := loadFold ctx coords (w, [])
  (evictOutside coords gen.1, gen.2)

/-- One saved block record of `World.save` / `World.load`. -/
structure SaveBlock where
  x : ℤ
  y : ℤ
  z : ℤ
  type : String
deriving DecidableEq

/-- The world part of a save payload (`Game.saveGame` stores seed, sky time,
weather and the full block list under `world`). -/
structure WorldSave where
  seed : ℤ
  time : Option ℚ
  weather : Option String
  blocks : List SaveBlock

/-- The save payload handed to `Game.loadGame` (player and audio collaborators
are outside the modelled core). -/
structure SaveData where
  version : ℤ
  world : Option WorldSave

/-- `World.clear`: drop every chunk, every block-index entry, and the
collidable cache. -/
def clearWorld (w : WorldState) : WorldState :=
  { w with chunks := fun _ => none, blockData := fun _ => none }

/-- `World.load`: clear the current world, adopt the saved seed, and replay
the saved block list into the block index (no chunk is regenerated here). -/
def loadWorld (w : WorldState) (wd : WorldSave) : WorldState :=
  let w1 := clearWorld w
  { w1 with
    seed := wd.seed,
    blockData :=
      applyWrites (wd.blocks.map (fun b => ((b.x, b.y, b.z), b.type)))
        w1.blockData }

/-- The in-memory game state `Game.loadGame` can touch: the world plus the
sky's time and weather. -/
structure GameState where
  world : WorldState
  skyTime : ℚ
  skyWeather : String

/-- `Game.loadGame` on an explicit payload: the version gate
(`saveData.version !== 1`) runs before any mutation; on success the world is
replaced via `World.load` and the sky fields are set with their defaults. -/
def loadGame (g : GameState) (d : SaveData) : Bool × GameState :=
  if d.version ≠ 1 then (false, g)
  else
    match d.world with
    | none => (true, g)
    | some wd =>
      (true,
        { world := loadWorld g.world wd,
          skyTime := wd.time.getD 8000,
          skyWeather := wd.weather.getD "clear" })

/-- A flat solid stone floor whose blocks sit at `y = -1` (top surface at
`y = 0`) for `|x| ≤ 4, |z| ≤ 4`; no chunk is resident (collision queries
consult only the block index). -/
def floorState : WorldState :=
  { chunks := fun _ => none,
    blockData := fun p =>
      if p.2.1 = -1 ∧ -4 ≤ p.1 ∧ p.1 ≤ 4 ∧ -4 ≤ p.2.2 ∧ p.2.2 ≤ 4 then
        some "stone"
      else none,
    seed := 42 }

/-- Agent box of footprint `0.6 × 0.6` and height `1.8` whose bottom is at
height `y`, centred at `(1/2, 1/2)` — strictly inside the single block column
`(0, ·, 0)`. -/
def alignedBoxAt (y : ℚ) : Box :=
  ⟨⟨1/5, y, 1/5⟩, ⟨4/5, y + 9/5, 4/5⟩⟩

/-- The same agent box centred at `(0, 0)` instead, so that it straddles the
four floor blocks around the origin. -/
def straddleBoxAt (y : ℚ) : Box :=
  ⟨⟨-3/10, y, -3/10⟩, ⟨3/10, y + 9/5, 3/10⟩⟩

/-- One iteration of the spec's settling test for the aligned box: move the
box down by `g` (velocity `(0, -g, 0)`) and run `World.resolveCollisions`;
record the resolved bottom height and the reported `onGround`. -/
def dropStep (g : ℚ) (s : ℚ × Bool) : ℚ × Bool :=
  let r := resolveCollisions floorState (alignedBoxAt (s.1 - g)) ⟨0, -g, 0⟩
  (r.position.y, r.onGround)

/-- The same settling iteration for the straddling box. -/
def straddleStep (g : ℚ) (s : ℚ × Bool) : ℚ × Bool :=
  let r := resolveCollisions floorState (straddleBoxAt (s.1 - g)) ⟨0, -g, 0⟩
  (r.position.y, r.onGround)

/-! ### Concrete fixtures used by witnesses and counterexamples -/

/-- An empty world: no chunk resident, empty block index. -/
def emptyWorld : WorldState :=
  { chunks := fun _ => none, blockData := fun _ => none, seed := 42 }

/-- A fresh game state over the empty world. -/
def gameState0 : GameState :=
  { world := emptyWorld, skyTime := 8000, skyWeather := "clear" }

/-- Player box for the C4 tie counterexample: penetrates the unit block at
the origin by `1/5` in x, `1/5` in y and `1/2` in z. -/
def tiePlayerBox : Box := ⟨⟨4/5, 4/5, 1/2⟩, ⟨9/5, 9/5, 3/2⟩⟩

/-- The unit block box at the origin. -/
def unitBlockBox : Box := ⟨⟨0, 0, 0⟩, ⟨1, 1, 1⟩⟩

/-- An empty resident chunk at chunk coordinate `(0, 0)`. -/
def chunkOO : Chunk := ⟨(0, 0), [], true⟩

/-- World with chunk `(0, 0)` resident and an empty block index. -/
def s6 : WorldState :=
  { chunks := fun c => if c = (0, 0) then some chunkOO else none,
    blockData := fun _ => none, seed := 42 }

/-- A stale state of the shape produced by chunk eviction (see C2): the block
index still holds `"grass"` at `(160, 5, 160)` although no chunk is
resident. -/
def s7 : WorldState :=
  { chunks := fun _ => none,
    blockData := fun p => if p = (160, 5, 160) then some "grass" else none,
    seed := 42 }

/-- A resident chunk at `(0, 0)` holding one stone mesh at `(1, 70, 1)`. -/
def chunkWithStone : Chunk := ⟨(0, 0), [⟨1, 70, 1, "stone"⟩], true⟩

/-- World for the C7 witness: chunk `(0, 0)` resident with a stone mesh and
matching block-index entry at `(1, 70, 1)`. -/
def s7b : WorldState :=
  { chunks := fun c => if c = (0, 0) then some chunkWithStone else none,
    blockData := fun p => if p = (1, 70, 1) then some "stone" else none,
    seed := 42 }

/-- First generation run: sample noise base 70, jitter draw `0`, tree draw
`1/100` at every column. -/
def ctxRunA : GenCtx := ⟨42, fun _ _ => 70, fun _ _ => 0, fun _ _ => 1/100⟩

/-- Second generation run: SAME seed and same deterministic noise base, but
different unseeded `Math.random()` draws (jitter `2/3`, tree draw `1/2`). -/
def ctxRunB : GenCtx := ⟨42, fun _ _ => 70, fun _ _ => 2/3, fun _ _ => 1/2⟩

/-- A run differing from `ctxRunA` only in the seed. -/
def ctxRunC : GenCtx := ⟨43, fun _ _ => 70, fun _ _ => 0, fun _ _ => 1/100⟩

/-- A run differing from `ctxRunA` only in the jitter draw, with the draw in
the same `Math.floor(r * 3)` class. -/
def ctxRunD : GenCtx := ⟨42, fun _ _ => 70, fun _ _ => 1/4, fun _ _ => 1/100⟩

/-- A sample generation context for concrete runs. -/
def ctx0 : GenCtx := ⟨42, fun _ _ => 70, fun _ _ => 0, fun _ _ => 0⟩

/-- A reachable-shaped state: the 3×3 chunk square around the origin is
resident, chunk `(10, 10)` is also resident, and the block index holds
`"grass"` at `(160, 5, 160)`, which lies inside chunk `(10, 10)`. -/
def s2 : WorldState :=
  { chunks := fun c =>
      if (-1 ≤ c.1 ∧ c.1 ≤ 1 ∧ -1 ≤ c.2 ∧ c.2 ≤ 1) ∨ c = (10, 10) then
        some ⟨c, [], true⟩
      else none,
    blockData := fun p => if p = (160, 5, 160) then some "grass" else none,
    seed := 42 }

/-! ### C3 — version gate of the load path -/

/-- Claim C3: for every load input whose `version` field is not `1`,
`Game.loadGame` reports failure and leaves the in-memory game state — in
particular the world's chunks, block index and seed — exactly as it was; no
part of the payload is applied.  The version gate runs before any mutation. -/
theorem c3_load_version_guard (g : GameState) (d : SaveData)
    (h : d.version ≠ 1) : loadGame g d = (false, g) := by
  unfold loadGame
  rw [if_pos h]

/-- Witness for C3 at version `2` over the fresh game state. -/
theorem c3_load_version_guard_witness :
    (2 : ℤ) ≠ 1 ∧
      loadGame gameState0 ⟨2, some ⟨7, none, none, []⟩⟩ = (false, gameState0) :=
  ⟨by decide, c3_load_version_guard gameState0 ⟨2, some ⟨7, none, none, []⟩⟩
    (by decide)⟩

/-! ### C9 — vertical ordering of a generated column -/

/-- Counterexample to claim C9 as stated: the claim puts kind `bedrock` at
`y = 0`, but `World.determineBlockType` yields `"stone"` there (the registry
has no bedrock kind at all; the source comment `// Bedrock at bottom` places
stone). -/
theorem c9_counterexample :
    determineBlockType 5 0 5 100 ≠ "bedrock" ∧
      determineBlockType 5 0 5 100 = "stone" := by
  constructor
  · decide
  · decide

/-- Claim C9 (amended): for a generated column of surface height `h > 4`
the vertical ordering is stone at `y = 0` (the source's bedrock stand-in),
stone for `0 < y < h - 4`, dirt for `h - 4 ≤ y < h`, grass at `y = h`, and
air for `y > h`. -/
theorem c9_vertical_ordering (x z h y : ℤ) (hh : 4 < h) :
    (y = 0 → determineBlockType x y z h = "stone") ∧
    (0 < y → y < h - 4 → determineBlockType x y z h = "stone") ∧
    (h - 4 ≤ y → y < h → determineBlockType x y z h = "dirt") ∧
    (y = h → determineBlockType x y z h = "grass") ∧
    (h < y → determineBlockType x y z h = "air") := by
  unfold determineBlockType
  refine ⟨?_, ?_, ?_, ?_, ?_⟩ <;> intros <;> split_ifs <;> first | rfl | omega

/-- Witness for C9 (amended) at `h = 70`: one sample per layer. -/
theorem c9_vertical_ordering_witness :
    determineBlockType 1 0 1 70 = "stone" ∧
    determineBlockType 1 30 1 70 = "stone" ∧
    determineBlockType 1 68 1 70 = "dirt" ∧
    determineBlockType 1 70 1 70 = "grass" ∧
    determineBlockType 1 71 1 70 = "air" :=
  ⟨(c9_vertical_ordering 1 1 70 0 (by decide)).1 rfl,
    (c9_vertical_ordering 1 1 70 30 (by decide)).2.1 (by decide) (by decide),
    (c9_vertical_ordering 1 1 70 68 (by decide)).2.2.1 (by decide) (by decide),
    (c9_vertical_ordering 1 1 70 70 (by decide)).2.2.2.1 rfl,
    (c9_vertical_ordering 1 1 70 71 (by decide)).2.2.2.2 (by decide)⟩

/-! ### C4 — resolution axis selection -/

/-- Counterexample to claim C4 as stated: with x- and y-penetrations tied at
`1/5` and z-penetration `1/2`, the source resolves along z — the axis of
GREATEST penetration — whereas the claim requires the least-penetration axis
with ties preferring x (the spec-side tie-break yields the x vector). -/
theorem c4_counterexample :
    checkBoxCollision tiePlayerBox unitBlockBox = true ∧
    xOverlap tiePlayerBox unitBlockBox = 1/5 ∧
    yOverlap tiePlayerBox unitBlockBox = 1/5 ∧
    zOverlap tiePlayerBox unitBlockBox = 1/2 ∧
    calculateResolutionVector tiePlayerBox unitBlockBox = ⟨0, 0, 1/2⟩ ∧
    specLeastAxisVector tiePlayerBox unitBlockBox = ⟨1/5, 0, 0⟩ := by
  refine ⟨?_, ?_, ?_, ?_, ?_, ?_⟩ <;>
    norm_num [checkBoxCollision, xOverlap, yOverlap, zOverlap,
      calculateResolutionVector, specLeastAxisVector, tiePlayerBox,
      unitBlockBox, min_def]

set_option maxHeartbeats 1600000 in
/-- Claim C4 (amended): when the three per-axis penetrations are pairwise
distinct, the resolution vector is along the axis of least penetration (it
agrees with the spec's least-axis rule); ties, however, always resolve along
z — an x/y tie picks z even when z has greater penetration — not along x as
claimed. -/
theorem c4_distinct_overlaps_least_axis (pb bb : Box)
    (hxy : xOverlap pb bb ≠ yOverlap pb bb)
    (hxz : xOverlap pb bb ≠ zOverlap pb bb)
    (hyz : yOverlap pb bb ≠ zOverlap pb bb) :
    calculateResolutionVector pb bb = specLeastAxisVector pb bb := by
  unfold calculateResolutionVector specLeastAxisVector
  rcases lt_or_gt_of_ne hxy with h1 | h1 <;>
    rcases lt_or_gt_of_ne hxz with h2 | h2 <;>
      rcases lt_or_gt_of_ne hyz with h3 | h3 <;>
        split_ifs <;>
          first
            | rfl
            | (exfalso;
               simp only [not_and_or, not_lt, not_le, gt_iff_lt] at *;
               casesm* _ ∨ _ <;> linarith)

/-- Witness for C4 (amended) with penetrations `1/10 < 3/10 < 1/2`. -/
theorem c4_distinct_overlaps_least_axis_witness :
    calculateResolutionVector ⟨⟨9/10, 7/10, 1/2⟩, ⟨19/10, 17/10, 3/2⟩⟩
        unitBlockBox =
      specLeastAxisVector ⟨⟨9/10, 7/10, 1/2⟩, ⟨19/10, 17/10, 3/2⟩⟩
        unitBlockBox :=
  c4_distinct_overlaps_least_axis _ _
    (by norm_num [xOverlap, yOverlap, unitBlockBox, min_def])
    (by norm_num [xOverlap, zOverlap, unitBlockBox, min_def])
    (by norm_num [yOverlap, zOverlap, unitBlockBox, min_def])

/-! ### C6 — placeBlock -/

/-- Counterexample to claim C6 as stated: at the empty position `(1, 70, 1)`
inside the resident chunk `(0, 0)`, `placeBlock` with kind `"air"` — and with
the unregistered kind `"diamond"` — returns `false` and inserts nothing
(`ResourceManager.createBlock` yields `null` for both), although the claim's
only failure conditions (occupied cell, non-resident chunk) are absent. -/
theorem c6_counterexample :
    getBlockAt s6 1 70 1 = "air" ∧
    (s6.chunks (0, 0)).isSome = true ∧
    placeBlock s6 "air" 1 70 1 = (false, s6) ∧
    placeBlock s6 "diamond" 1 70 1 = (false, s6) ∧
    getBlockAt (placeBlock s6 "diamond" 1 70 1).2 1 70 1 ≠ "diamond" :=
  ⟨rfl, rfl, rfl, rfl, by decide⟩

/-- Claim C6 (amended): for every REGISTERED, non-air block kind `k`,
`placeBlock` returns `false` with no mutation when the cell is occupied or
the containing chunk is not resident; otherwise it succeeds, a following
`getBlockAt` returns `k`, and a second `placeBlock` at the same position
returns `false` and leaves the state unchanged.  (For `"air"` and unknown
kinds `placeBlock` always fails, because `createBlock` returns `null`.) -/
theorem c6_place_block_behaviour (w : WorldState) (k : String) (x y z : ℤ)
    (info : BlockTypeInfo) (hreg : blockTypes k = some info)
    (hnm : info.name ≠ "Air") :
    (getBlockAt w x y z ≠ "air" → placeBlock w k x y z = (false, w)) ∧
    (w.chunks (Int.fdiv x 16, Int.fdiv z 16) = none →
      placeBlock w k x y z = (false, w)) ∧
    (∀ c, getBlockAt w x y z = "air" →
      w.chunks (Int.fdiv x 16, Int.fdiv z 16) = some c →
      (placeBlock w k x y z).1 = true ∧
      getBlockAt (placeBlock w k x y z).2 x y z = k ∧
      placeBlock (placeBlock w k x y z).2 k x y z =
        (false, (placeBlock w k x y z).2)) := by
  have hcreate : createBlock k x y z = some ⟨x, y, z, k⟩ := by
    unfold createBlock getBlockType
    rw [hreg]
    exact if_neg hnm
  have hkair : k ≠ "air" := by
    intro hk
    subst hk
    have h2 : (⟨0, "Air", true, false⟩ : BlockTypeInfo) = info :=
      Option.some.inj hreg
    exact hnm (by rw [← h2])
  refine ⟨?_, ?_, ?_⟩
  · intro hocc
    unfold placeBlock
    rw [if_pos hocc]
  · intro hchunk
    by_cases hq : getBlockAt w x y z = "air"
    · simp only [placeBlock, hq, ne_eq, not_true_eq_false, if_false,
        hcreate, hchunk]
    · unfold placeBlock
      rw [if_pos hq]
  · intro c hair hchunk
    have hplace : placeBlock w k x y z =
        (true,
          { w with
            chunks := chunkSet w.chunks (Int.fdiv x 16, Int.fdiv z 16)
              { c with blocks := c.blocks ++ [⟨x, y, z, k⟩] },
            blockData := mapSet w.blockData (x, y, z) k }) := by
      simp only [placeBlock, hair, ne_eq, not_true_eq_false, if_false,
        hcreate, hchunk]
    refine ⟨by rw [hplace], ?_, ?_⟩
    · rw [hplace]
      simp [getBlockAt, mapSet]
    · rw [hplace]
      unfold placeBlock
      rw [if_pos (by simp [getBlockAt, mapSet, hkair])]

/-- Witness for C6 (amended): placing `"stone"` at the empty cell
`(1, 70, 1)` of `s6` succeeds, reads back as stone, and a repeat place
fails without mutation. -/
theorem c6_place_block_behaviour_witness :
    (placeBlock s6 "stone" 1 70 1).1 = true ∧
    getBlockAt (placeBlock s6 "stone" 1 70 1).2 1 70 1 = "stone" ∧
    placeBlock (placeBlock s6 "stone" 1 70 1).2 "stone" 1 70 1 =
      (false, (placeBlock s6 "stone" 1 70 1).2) :=
  (c6_place_block_behaviour s6 "stone" 1 70 1 ⟨1, "Stone", false, true⟩ rfl
    (by decide)).2.2 chunkOO rfl rfl

/-! ### C7 — removeBlock -/

/-- Counterexample to claim C7 as stated: at `(160, 5, 160)` the block is
non-air, yet `removeBlock` returns `false` (the containing chunk `(10, 10)`
is not resident) and deletes nothing — so `removeBlock` does NOT return false
exactly on air positions, and a non-air position can survive removal. -/
theorem c7_counterexample :
    getBlockAt s7 160 5 160 = "grass" ∧
    getBlockAt s7 160 5 160 ≠ "air" ∧
    removeBlock s7 160 5 160 = (false, s7) ∧
    getBlockAt (removeBlock s7 160 5 160).2 160 5 160 = "grass" :=
  ⟨rfl, by decide, rfl, rfl⟩

/-- Claim C7 (amended): `removeBlock` returns `false` and mutates nothing
when the position is air, when the containing chunk is not resident, or when
the chunk's block list has no mesh at the exact position (stale index
entries); otherwise it succeeds, a following `getBlockAt` returns air, and a
second `removeBlock` returns `false`. -/
theorem c7_remove_block_behaviour (w : WorldState) (x y z : ℤ) :
    (getBlockAt w x y z = "air" → removeBlock w x y z = (false, w)) ∧
    (getBlockAt w x y z ≠ "air" →
      w.chunks (Int.fdiv x 16, Int.fdiv z 16) = none →
      removeBlock w x y z = (false, w)) ∧
    (∀ c, getBlockAt w x y z ≠ "air" →
      w.chunks (Int.fdiv x 16, Int.fdiv z 16) = some c →
      (c.blocks.findIdx? (fun b => b.x = x && b.y = y && b.z = z) = none →
        removeBlock w x y z = (false, w)) ∧
      (∀ i, c.blocks.findIdx? (fun b => b.x = x && b.y = y && b.z = z) =
          some i →
        (removeBlock w x y z).1 = true ∧
        getBlockAt (removeBlock w x y z).2 x y z = "air" ∧
        removeBlock (removeBlock w x y z).2 x y z =
          (false, (removeBlock w x y z).2))) := by
  refine ⟨?_, ?_, ?_⟩
  · intro hq
    unfold removeBlock
    rw [if_pos hq]
  · intro hq hchunk
    simp only [removeBlock, hq, if_false, hchunk]
  · intro c hq hchunk
    constructor
    · intro hfind
      simp only [removeBlock, hq, if_false, hchunk, hfind]
    · intro i hfind
      have hrem : removeBlock w x y z =
          (true,
            { w with
              chunks := chunkSet w.chunks (Int.fdiv x 16, Int.fdiv z 16)
                { c with blocks := c.blocks.eraseIdx i },
              blockData := mapDelete w.blockData (x, y, z) }) := by
        simp only [removeBlock, hq, if_false, hchunk, hfind]
      refine ⟨by rw [hrem], ?_, ?_⟩
      · rw [hrem]
        simp [getBlockAt, mapDelete]
      · rw [hrem]
        unfold removeBlock
        rw [if_pos (by simp [getBlockAt, mapDelete])]

/-- Witness for C7 (amended): removing the stone at `(1, 70, 1)` succeeds,
reads back as air, and a repeat removal fails. -/
theorem c7_remove_block_behaviour_witness :
    (removeBlock s7b 1 70 1).1 = true ∧
    getBlockAt (removeBlock s7b 1 70 1).2 1 70 1 = "air" ∧
    removeBlock (removeBlock s7b 1 70 1).2 1 70 1 =
      (false, (removeBlock s7b 1 70 1).2) :=
  ((c7_remove_block_behaviour s7b 1 70 1).2.2 chunkWithStone (by decide)
    rfl).2 0 (by decide)

/-! ### C1 — determinism of generation -/

/-- Counterexample to claim C1 as stated: two generation runs with the same
seed, the same coordinates and the same deterministic noise base disagree —
the column height moves with the unseeded jitter draw
(`Math.floor(Math.random() * 3) - 1`) and the tree decision is decided by the
unseeded tree draw alone — so heights and tree stamping are NOT functions of
the seed and the coordinates only. -/
theorem c1_counterexample :
    ctxRunA.seed = ctxRunB.seed ∧
    ctxRunA.noiseBase = ctxRunB.noiseBase ∧
    columnHeight ctxRunA 0 0 = 69 ∧
    columnHeight ctxRunB 0 0 = 71 ∧
    generateHeightMap ctxRunA 0 0 ≠ generateHeightMap ctxRunB 0 0 ∧
    shouldGenerateTree ctxRunA 5 70 5 = true ∧
    shouldGenerateTree ctxRunB 5 70 5 = false := by
  have hA : columnHeight ctxRunA 0 0 = 69 := by
    norm_num [columnHeight, ctxRunA]
  have hB : columnHeight ctxRunB 0 0 = 71 := by
    norm_num [columnHeight, ctxRunB]
  refine ⟨rfl, rfl, hA, hB, ?_, ?_, ?_⟩
  · intro h
    simp only [generateHeightMap, List.map_inj_left] at h
    have h2 := h 0 (by decide) 0 (by decide)
    norm_num at h2
    rw [hA, hB] at h2
    exact absurd h2 (by decide)
  · simp only [shouldGenerateTree, ctxRunA, decide_eq_true_eq]
    norm_num
  · simp only [shouldGenerateTree, ctxRunB, decide_eq_false_iff_not]
    norm_num

/-- Claim C1 (amended): generation is a pure function of the coordinates, the
deterministic noise base and the per-column unseeded `Math.random()` draws —
the seed is never consulted; two runs whose draws agree (for heights: whose
jitter draws fall in the same `Math.floor(r * 3)` class) produce identical
height maps and tree decisions. -/
theorem c1_generation_function_of_draws :
    (∀ (c c' : GenCtx) (cx cz x y z : ℤ),
      c.noiseBase = c'.noiseBase → c.jitterDraw = c'.jitterDraw →
      c.treeDraw = c'.treeDraw →
      generateHeightMap c cx cz = generateHeightMap c' cx cz ∧
      shouldGenerateTree c x y z = shouldGenerateTree c' x y z) ∧
    (∀ (c c' : GenCtx) (x z : ℤ),
      c.noiseBase = c'.noiseBase →
      ⌊c.jitterDraw x z * 3⌋ = ⌊c'.jitterDraw x z * 3⌋ →
      columnHeight c x z = columnHeight c' x z) := by
  constructor
  · intro c c' cx cz x y z h1 h2 h3
    constructor
    · simp only [generateHeightMap, columnHeight, h1, h2]
    · simp only [shouldGenerateTree, h3]
  · intro c c' x z h1 h2
    unfold columnHeight
    rw [h1, h2]

/-- Witness for C1 (amended): the seed-42 and seed-43 runs with identical
draws coincide, and jitter draws `0` and `1/4` (same floor class) give the
same column height. -/
theorem c1_generation_function_of_draws_witness :
    (generateHeightMap ctxRunA 0 0 = generateHeightMap ctxRunC 0 0 ∧
      shouldGenerateTree ctxRunA 5 70 5 = shouldGenerateTree ctxRunC 5 70 5) ∧
    columnHeight ctxRunA 3 3 = columnHeight ctxRunD 3 3 :=
  ⟨c1_generation_function_of_draws.1 ctxRunA ctxRunC 0 0 5 70 5 rfl rfl rfl,
    c1_generation_function_of_draws.2 ctxRunA ctxRunD 3 3 rfl
      (by norm_num [ctxRunA, ctxRunD])⟩

/-! ### Load/evict infrastructure lemmas (C2, C8) -/

lemma mem_intRange {lo hi c : ℤ} : c ∈ intRange lo hi ↔ lo ≤ c ∧ c < hi := by
  unfold intRange
  constructor
  · intro h
    obtain ⟨i, hi2, rfl⟩ := List.mem_map.mp h
    have h3 := List.mem_range.mp hi2
    omega
  · intro h
    refine List.mem_map.mpr ⟨(c - lo).toNat, List.mem_range.mpr ?_, ?_⟩ <;>
      omega

lemma mem_squareCoords {cX cZ : ℤ} {r : ℕ} {c : ℤ × ℤ} :
    c ∈ squareCoords cX cZ r ↔
      (c.1 - cX).natAbs ≤ r ∧ (c.2 - cZ).natAbs ≤ r := by
  unfold squareCoords
  simp only [List.mem_flatMap, List.mem_map, mem_intRange]
  constructor
  · rintro ⟨dx, ⟨h1, h2⟩, dz, ⟨h3, h4⟩, rfl⟩
    constructor <;> simp <;> omega
  · rintro ⟨h1, h2⟩
    refine ⟨c.1 - cX, ⟨by omega, by omega⟩, c.2 - cZ, ⟨by omega, by omega⟩, ?_⟩
    simp

lemma applyWrites_isSome (l : List (Pos × String)) :
    ∀ (m : Pos → Option String) (p : Pos), (m p).isSome = true →
      ((applyWrites l m) p).isSome = true := by
  induction l with
  | nil => exact fun m p h => h
  | cons a l ih =>
      intro m p h
      show ((applyWrites l (mapSet m a.1 a.2)) p).isSome = true
      apply ih
      unfold mapSet
      split_ifs
      · rfl
      · exact h

lemma loadStep_chunks_self (ctx : GenCtx) (sa : WorldState × List Chunk)
    (c : ℤ × ℤ) : ((loadStep ctx sa c).1.chunks c).isSome = true := by
  unfold loadStep
  split_ifs with h1
  · exact h1
  · simp [generateChunk, chunkSet]

lemma loadStep_chunks_mono (ctx : GenCtx) (sa : WorldState × List Chunk)
    (c d : ℤ × ℤ) (h : (sa.1.chunks d).isSome = true) :
    ((loadStep ctx sa c).1.chunks d).isSome = true := by
  unfold loadStep
  split_ifs with h1
  · exact h
  · by_cases hd : d = c
    · subst hd
      simp [generateChunk, chunkSet]
    · simpa [generateChunk, chunkSet, hd] using h

lemma loadStep_blockData_mono (ctx : GenCtx) (sa : WorldState × List Chunk)
    (c : ℤ × ℤ) (p : Pos) (h : (sa.1.blockData p).isSome = true) :
    ((loadStep ctx sa c).1.blockData p).isSome = true := by
  unfold loadStep
  split_ifs with h1
  · exact h
  · exact applyWrites_isSome (chunkWrites ctx c.1 c.2) sa.1.blockData p h

lemma loadFold_chunks_mono (ctx : GenCtx) (coords : List (ℤ × ℤ)) :
    ∀ (sa : WorldState × List Chunk) (d : ℤ × ℤ),
      (sa.1.chunks d).isSome = true →
      ((loadFold ctx coords sa).1.chunks d).isSome = true := by
  induction coords with
  | nil => exact fun sa d h => h
  | cons a l ih =>
      intro sa d h
      show ((loadFold ctx l (loadStep ctx sa a)).1.chunks d).isSome = true
      exact ih _ d (loadStep_chunks_mono ctx sa a d h)

lemma loadFold_blockData_mono (ctx : GenCtx) (coords : List (ℤ × ℤ)) :
    ∀ (sa : WorldState × List Chunk) (p : Pos),
      (sa.1.blockData p).isSome = true →
      ((loadFold ctx coords sa).1.blockData p).isSome = true := by
  induction coords with
  | nil => exact fun sa p h => h
  | cons a l ih =>
      intro sa p h
      show ((loadFold ctx l (loadStep ctx sa a)).1.blockData p).isSome = true
      exact ih _ p (loadStep_blockData_mono ctx sa a p h)

lemma loadFold_chunks_mem (ctx : GenCtx) (coords : List (ℤ × ℤ)) :
    ∀ (sa : WorldState × List Chunk) (d : ℤ × ℤ), d ∈ coords →
      ((loadFold ctx coords sa).1.chunks d).isSome = true := by
  induction coords with
  | nil => intro sa d h; cases h
  | cons a l ih =>
      intro sa d h
      show ((loadFold ctx l (loadStep ctx sa a)).1.chunks d).isSome = true
      rcases List.mem_cons.mp h with rfl | hmem
      · exact loadFold_chunks_mono ctx l _ d (loadStep_chunks_self ctx sa d)
      · exact ih _ d hmem

lemma loadFold_skip_all (ctx : GenCtx) (coords : List (ℤ × ℤ)) :
    ∀ (w : WorldState) (acc : List Chunk),
      (∀ c ∈ coords, (w.chunks c).isSome = true) →
      loadFold ctx coords (w, acc) = (w, acc) := by
  induction coords with
  | nil => intro w acc _; rfl
  | cons a l ih =>
      intro w acc h
      have hstep : loadStep ctx (w, acc) a = (w, acc) := by
        unfold loadStep
        rw [if_pos (h a (List.mem_cons_self a l))]
      show loadFold ctx l (loadStep ctx (w, acc) a) = (w, acc)
      rw [hstep]
      exact ih w acc fun c hc => h c (List.mem_cons_of_mem a hc)

/-! ### C2 — eviction and the block index -/

/-- Counterexample to claim C2 as stated: loading around the origin with
render distance 1 evicts chunk `(10, 10)` (it has left the desired square),
yet the block-index entry at `(160, 5, 160)` — inside that chunk — survives,
and `getBlockAt` still returns `"grass"`, not air: the eviction loop deletes
from `chunks` only and never touches `blockData`. -/
theorem c2_counterexample :
    (s2.chunks (10, 10)).isSome = true ∧
    (loadChunksAroundPosition ctx0 1 s2 0 0).1.chunks (10, 10) = none ∧
    getBlockAt (loadChunksAroundPosition ctx0 1 s2 0 0).1 160 5 160 =
      "grass" := by
  have hc : (⌊(0 : ℚ) / (16 * 1)⌋ : ℤ) = 0 := by norm_num
  refine ⟨rfl, ?_, ?_⟩ <;>
    · simp only [loadChunksAroundPosition, hc]
      decide

/-- Claim C2 (amended): `loadChunksAroundPosition` never removes a
block-index entry — generation only adds or overwrites entries and the
eviction pass prunes only the chunk map — so every pre-existing key is still
present (possibly overwritten) after any load, including keys inside evicted
chunks; a subsequent `getBlockAt` there returns the stale kind, not air. -/
theorem c2_load_never_evicts_index (ctx : GenCtx) (r : ℕ) (w : WorldState)
    (px pz : ℚ) (p : Pos) (k : String) (h : w.blockData p = some k) :
    ∃ k', (loadChunksAroundPosition ctx r w px pz).1.blockData p = some k' := by
  have h1 : ((loadFold ctx (squareCoords ⌊px / (16 * 1)⌋ ⌊pz / (16 * 1)⌋ r)
      (w, [])).1.blockData p).isSome = true :=
    loadFold_blockData_mono ctx _ (w, []) p (by rw [h]; rfl)
  exact Option.isSome_iff_exists.mp h1

/-- Witness for C2 (amended) on the concrete state `s2`. -/
theorem c2_load_never_evicts_index_witness :
    s2.blockData (160, 5, 160) = some "grass" ∧
    ∃ k', (loadChunksAroundPosition ctx0 1 s2 0 0).1.blockData (160, 5, 160) =
      some k' :=
  ⟨rfl, c2_load_never_evicts_index ctx0 1 s2 0 0 (160, 5, 160) "grass" rfl⟩

/-! ### C8 — residency square and idempotence -/

lemma evictOutside_mem (coords : List (ℤ × ℤ)) (w : WorldState) (c : ℤ × ℤ)
    (h : c ∈ coords) : (evictOutside coords w).chunks c = w.chunks c := by
  unfold evictOutside
  simp [h]

lemma evictOutside_notmem (coords : List (ℤ × ℤ)) (w : WorldState)
    (c : ℤ × ℤ) (h : c ∉ coords) : (evictOutside coords w).chunks c = none := by
  unfold evictOutside
  simp [h]

lemma evictOutside_idem (coords : List (ℤ × ℤ)) (w : WorldState) :
    evictOutside coords (evictOutside coords w) = evictOutside coords w := by
  unfold evictOutside
  simp only [WorldState.mk.injEq, and_true, true_and]
  funext c
  by_cases h : c ∈ coords <;> simp [h]

/-- Claim C8: after `loadChunksAroundPosition`, the resident chunk
coordinates are exactly the square within Chebyshev distance `r` of the
chunk containing the position, and the call is idempotent — a second call at
the same position returns the same state and loads no new chunk (its
`newlyLoadedChunks` list is empty). -/
theorem c8_residency_and_idempotence (ctx : GenCtx) (r : ℕ) (w : WorldState)
    (px pz : ℚ) :
    (∀ c : ℤ × ℤ,
      (((loadChunksAroundPosition ctx r w px pz).1.chunks c).isSome = true ↔
        max (c.1 - ⌊px / (16 * 1)⌋).natAbs (c.2 - ⌊pz / (16 * 1)⌋).natAbs
          ≤ r)) ∧
    loadChunksAroundPosition ctx r (loadChunksAroundPosition ctx r w px pz).1
        px pz =
      ((loadChunksAroundPosition ctx r w px pz).1, []) := by
  have hres : ∀ c : ℤ × ℤ,
      (((loadChunksAroundPosition ctx r w px pz).1.chunks c).isSome = true ↔
        max (c.1 - ⌊px / (16 * 1)⌋).natAbs (c.2 - ⌊pz / (16 * 1)⌋).natAbs
          ≤ r) := by
    intro c
    by_cases hm : c ∈ squareCoords ⌊px / (16 * 1)⌋ ⌊pz / (16 * 1)⌋ r
    · refine iff_of_true ?_ (max_le_iff.mpr (mem_squareCoords.mp hm))
      show ((evictOutside _ (loadFold ctx _ (w, [])).1).chunks c).isSome = true
      rw [evictOutside_mem _ _ _ hm]
      exact loadFold_chunks_mem ctx _ (w, []) c hm
    · refine iff_of_false ?_
        (fun hcheb => hm (mem_squareCoords.mpr (max_le_iff.mp hcheb)))
      show ((evictOutside _ (loadFold ctx _ (w, [])).1).chunks c).isSome = true
        → False
      rw [evictOutside_notmem _ _ _ hm]
      simp
  refine ⟨hres, ?_⟩
  have hall : ∀ c ∈ squareCoords ⌊px / (16 * 1)⌋ ⌊pz / (16 * 1)⌋ r,
      (((loadChunksAroundPosition ctx r w px pz).1).chunks c).isSome = true :=
    fun c hc => (hres c).mpr (max_le_iff.mpr (mem_squareCoords.mp hc))
  show (evictOutside _
      (loadFold ctx _ ((loadChunksAroundPosition ctx r w px pz).1, [])).1,
      (loadFold ctx _ ((loadChunksAroundPosition ctx r w px pz).1, [])).2) =
    ((loadChunksAroundPosition ctx r w px pz).1, [])
  rw [loadFold_skip_all ctx _ _ [] hall]
  show (evictOutside _ (evictOutside _ (loadFold ctx _ (w, [])).1), []) = _
  rw [evictOutside_idem]
  rfl

/-! ### Collision infrastructure lemmas (C5, C10) -/

lemma checkBoxCollision_sep (b1 b2 : Box)
    (h : b1.max.x ≤ b2.min.x ∨ b1.min.x ≥ b2.max.x ∨
      b1.max.y ≤ b2.min.y ∨ b1.min.y ≥ b2.max.y ∨
      b1.max.z ≤ b2.min.z ∨ b1.min.z ≥ b2.max.z) :
    checkBoxCollision b1 b2 = false := by
  unfold checkBoxCollision
  split_ifs with h1 h2 h3
  · rfl
  · rfl
  · rfl
  · exfalso
    rcases h with h | h | h | h | h | h
    · exact h1 (Or.inl h)
    · exact h1 (Or.inr h)
    · exact h2 (Or.inl h)
    · exact h2 (Or.inr h)
    · exact h3 (Or.inl h)
    · exact h3 (Or.inr h)

lemma isSolid_floorState (x y z : ℤ) :
    isSolid floorState x y z =
      decide (y = -1 ∧ -4 ≤ x ∧ x ≤ 4 ∧ -4 ≤ z ∧ z ≤ 4) := by
  by_cases h : y = -1 ∧ -4 ≤ x ∧ x ≤ 4 ∧ -4 ≤ z ∧ z ≤ 4 <;>
    simp [isSolid, getBlockAt, floorState, getBlockType, blockTypes, h]

/-- Any box whose bottom is at or above the floor's top surface collides with
nothing in `floorState`. -/
lemma floor_scan_above (box : Box) (h : (0 : ℚ) ≤ box.min.y) :
    checkBlockCollisions floorState box = [] := by
  unfold checkBlockCollisions
  rw [List.flatMap_eq_nil_iff]
  intro x hx
  rw [List.flatMap_eq_nil_iff]
  intro y hy
  rw [List.filterMap_eq_nil_iff]
  intro z hz
  by_cases hs : y = -1 ∧ -4 ≤ x ∧ x ≤ 4 ∧ -4 ≤ z ∧ z ≤ 4
  · have hsol : isSolid floorState x y z = true := by
      rw [isSolid_floorState]
      exact decide_eq_true hs
    have hbox : getCollisionBox floorState x y z =
        some ⟨⟨x, y, z⟩, ⟨x + 1, y + 1, z + 1⟩⟩ := by
      unfold getCollisionBox
      rw [if_pos hsol]
    have hnc : checkBoxCollision box ⟨⟨x, y, z⟩, ⟨x + 1, y + 1, z + 1⟩⟩ =
        false := by
      apply checkBoxCollision_sep
      right; right; right; left
      show (box.min.y : ℚ) ≥ (y : ℚ) + 1
      rw [hs.1]
      push_cast
      linarith
    rw [if_pos hsol, hbox]
    simp [hnc]
  · have hsol : isSolid floorState x y z = false := by
      rw [isSolid_floorState]
      exact decide_eq_false hs
    rw [if_neg (by rw [hsol]; exact Bool.false_ne_true)]

/-- With no colliding block, `resolveCollisions` over the flat floor passes
the box's bottom-centre position through unchanged. -/
lemma resolve_no_collision (box : Box) (v : Vec3) (h : (0 : ℚ) ≤ box.min.y) :
    resolveCollisions floorState box v =
      ⟨⟨(box.min.x + box.max.x) / 2, box.min.y,
        (box.min.z + box.max.z) / 2⟩, false, false⟩ := by
  unfold resolveCollisions
  rw [floor_scan_above box h, if_pos rfl]

lemma aligned_scan (pen : ℚ) (h0 : 0 < pen) (h1 : pen < 4/5) :
    checkBlockCollisions floorState (alignedBoxAt (-pen)) =
      [⟨(0, -1, 0), "stone", ⟨⟨0, -1, 0⟩, ⟨1, 0, 1⟩⟩⟩] := by
  have hminx : (⌊(alignedBoxAt (-pen)).min.x - 1⌋ : ℤ) = -1 := by
    show (⌊(1/5 : ℚ) - 1⌋ : ℤ) = -1
    rw [Int.floor_eq_iff] <;> norm_num
  have hmaxx : (⌈(alignedBoxAt (-pen)).max.x + 1⌉ : ℤ) = 2 := by
    show (⌈(4/5 : ℚ) + 1⌉ : ℤ) = 2
    rw [Int.ceil_eq_iff] <;> norm_num
  have hminz : (⌊(alignedBoxAt (-pen)).min.z - 1⌋ : ℤ) = -1 := hminx
  have hmaxz : (⌈(alignedBoxAt (-pen)).max.z + 1⌉ : ℤ) = 2 := hmaxx
  have hminy : (⌊(alignedBoxAt (-pen)).min.y - 1⌋ : ℤ) = -2 := by
    show (⌊-pen - 1⌋ : ℤ) = -2
    rw [Int.floor_eq_iff]
    constructor <;> push_cast <;> linarith
  have hmaxy : (⌈(alignedBoxAt (-pen)).max.y + 1⌉ : ℤ) = 3 := by
    show (⌈-pen + 9/5 + 1⌉ : ℤ) = 3
    rw [Int.ceil_eq_iff]
    constructor <;> push_cast <;> linarith
  have hA1 : pen + (-1 : ℚ) < 9/5 := by linarith
  have hA2 : pen - 1 < (9/5 : ℚ) := by linarith
  have hA3 : -pen < (0 : ℚ) := by linarith
  have hA4 : pen < (14/5 : ℚ) := by linarith
  unfold checkBlockCollisions
  rw [hminx, hmaxx, hminy, hmaxy, hminz, hmaxz]
  rw [show intRange (-1) 2 = [-1, 0, 1] by decide,
    show intRange (-2) 3 = [-2, -1, 0, 1, 2] by decide]
  have hstone : getBlockAt floorState 0 (-1) 0 = "stone" := rfl
  norm_num [List.flatMap_cons, List.flatMap_nil, List.filterMap_cons,
    isSolid_floorState, getCollisionBox, hstone,
    checkBoxCollision, alignedBoxAt, hA1, hA2, hA3, hA4, h0, h1]

/-- Unfolding lemma for the `Add Vec3` instance. -/
lemma vec3_add_def (a b : Vec3) : a + b = ⟨a.x + b.x, a.y + b.y, a.z + b.z⟩ := rfl

lemma aligned_resolve (pen : ℚ) (h0 : 0 < pen) (h1 : pen < 4/5) (v : Vec3) :
    resolveCollisions floorState (alignedBoxAt (-pen)) v =
      ⟨⟨1/2, 0, 1/2⟩, true, true⟩ := by
  have hx : xOverlap (alignedBoxAt (-pen)) ⟨⟨0, -1, 0⟩, ⟨1, 0, 1⟩⟩ = 4/5 := by
    show min ((4/5 : ℚ) - 0) (1 - 1/5) = 4/5
    norm_num
  have hz : zOverlap (alignedBoxAt (-pen)) ⟨⟨0, -1, 0⟩, ⟨1, 0, 1⟩⟩ = 4/5 := by
    show min ((4/5 : ℚ) - 0) (1 - 1/5) = 4/5
    norm_num
  have hy : yOverlap (alignedBoxAt (-pen)) ⟨⟨0, -1, 0⟩, ⟨1, 0, 1⟩⟩ = pen := by
    show min ((-pen + 9/5) - (-1)) (0 - (-pen)) = pen
    rw [min_eq_right (by linarith)]
    ring
  have hres : calculateResolutionVector (alignedBoxAt (-pen))
      ⟨⟨0, -1, 0⟩, ⟨1, 0, 1⟩⟩ = ⟨0, pen, 0⟩ := by
    unfold calculateResolutionVector
    rw [hx, hy, hz]
    rw [if_neg (fun hc => absurd hc.1 (not_lt.mpr h1.le)), if_pos ⟨h1, h1⟩,
      if_pos (show (alignedBoxAt (-pen)).max.y >
        (⟨⟨0, -1, 0⟩, ⟨1, 0, 1⟩⟩ : Box).max.y from
        show (0 : ℚ) < -pen + 9/5 by linarith)]
  unfold resolveCollisions
  rw [aligned_scan pen h0 h1, if_neg (by simp)]
  simp only [List.foldl_cons, List.foldl_nil, hres, vec3_add_def]
  norm_num [alignedBoxAt, Vec3.mk.injEq, ResolveResult.mk.injEq, h0,
    abs_of_pos h0]

lemma straddle_scan (pen : ℚ) (h0 : 0 < pen) (h1 : pen < 3/10) :
    checkBlockCollisions floorState (straddleBoxAt (-pen)) =
      [⟨(-1, -1, -1), "stone", ⟨⟨-1, -1, -1⟩, ⟨0, 0, 0⟩⟩⟩,
       ⟨(-1, -1, 0), "stone", ⟨⟨-1, -1, 0⟩, ⟨0, 0, 1⟩⟩⟩,
       ⟨(0, -1, -1), "stone", ⟨⟨0, -1, -1⟩, ⟨1, 0, 0⟩⟩⟩,
       ⟨(0, -1, 0), "stone", ⟨⟨0, -1, 0⟩, ⟨1, 0, 1⟩⟩⟩] := by
  have hminx : (⌊(straddleBoxAt (-pen)).min.x - 1⌋ : ℤ) = -2 := by
    show (⌊(-3/10 : ℚ) - 1⌋ : ℤ) = -2
    rw [Int.floor_eq_iff] <;> norm_num
  have hmaxx : (⌈(straddleBoxAt (-pen)).max.x + 1⌉ : ℤ) = 2 := by
    show (⌈(3/10 : ℚ) + 1⌉ : ℤ) = 2
    rw [Int.ceil_eq_iff] <;> norm_num
  have hminz : (⌊(straddleBoxAt (-pen)).min.z - 1⌋ : ℤ) = -2 := hminx
  have hmaxz : (⌈(straddleBoxAt (-pen)).max.z + 1⌉ : ℤ) = 2 := hmaxx
  have hminy : (⌊(straddleBoxAt (-pen)).min.y - 1⌋ : ℤ) = -2 := by
    show (⌊-pen - 1⌋ : ℤ) = -2
    rw [Int.floor_eq_iff]
    constructor <;> push_cast <;> linarith
  have hmaxy : (⌈(straddleBoxAt (-pen)).max.y + 1⌉ : ℤ) = 3 := by
    show (⌈-pen + 9/5 + 1⌉ : ℤ) = 3
    rw [Int.ceil_eq_iff]
    constructor <;> push_cast <;> linarith
  have hA1 : pen + (-1 : ℚ) < 9/5 := by linarith
  have hA2 : pen - 1 < (9/5 : ℚ) := by linarith
  have hA3 : -pen < (0 : ℚ) := by linarith
  have hs1 : getBlockAt floorState (-1) (-1) (-1) = "stone" := rfl
  have hs2 : getBlockAt floorState (-1) (-1) 0 = "stone" := rfl
  have hs3 : getBlockAt floorState 0 (-1) (-1) = "stone" := rfl
  have hs4 : getBlockAt floorState 0 (-1) 0 = "stone" := rfl
  unfold checkBlockCollisions
  rw [hminx, hmaxx, hminy, hmaxy, hminz, hmaxz]
  rw [show intRange (-2) 2 = [-2, -1, 0, 1] by decide,
    show intRange (-2) 3 = [-2, -1, 0, 1, 2] by decide]
  norm_num [List.flatMap_cons, List.flatMap_nil, List.filterMap_cons,
    isSolid_floorState, getCollisionBox, hs1, hs2, hs3, hs4,
    checkBoxCollision, straddleBoxAt, hA1, hA2, hA3, h0, h1]

lemma straddle_resolve (pen : ℚ) (h0 : 0 < pen) (h1 : pen < 3/10) (v : Vec3) :
    resolveCollisions floorState (straddleBoxAt (-pen)) v =
      ⟨⟨0, 3 * pen, 0⟩, true, true⟩ := by
  have hx1 : xOverlap (straddleBoxAt (-pen)) ⟨⟨-1, -1, -1⟩, ⟨0, 0, 0⟩⟩
      = 3/10 := by
    show min ((3/10 : ℚ) - (-1)) (0 - (-3/10)) = 3/10
    norm_num
  have hx2 : xOverlap (straddleBoxAt (-pen)) ⟨⟨0, -1, 0⟩, ⟨1, 0, 1⟩⟩
      = 3/10 := by
    show min ((3/10 : ℚ) - 0) (1 - (-3/10)) = 3/10
    norm_num
  have hy : ∀ b2 : Box, b2.min.y = -1 → b2.max.y = 0 →
      yOverlap (straddleBoxAt (-pen)) b2 = pen := by
    intro b2 e1 e2
    unfold yOverlap straddleBoxAt
    rw [e1, e2]
    rw [min_eq_right (by linarith)]
    ring
  have hcrv : ∀ (p3 : Pos) (b2 : Box),
      xOverlap (straddleBoxAt (-pen)) b2 = 3/10 →
      zOverlap (straddleBoxAt (-pen)) b2 = 3/10 →
      b2.min.y = -1 → b2.max.y = 0 →
      calculateResolutionVector (straddleBoxAt (-pen)) b2 = ⟨0, pen, 0⟩ := by
    intro p3 b2 ex ez e1 e2
    unfold calculateResolutionVector
    rw [ex, ez, hy b2 e1 e2]
    rw [if_neg (fun hc => absurd hc.1 (not_lt.mpr h1.le)), if_pos ⟨h1, h1⟩,
      if_pos (show (straddleBoxAt (-pen)).max.y > b2.max.y from by
        rw [e2]; show (0 : ℚ) < -pen + 9/5; linarith)]
  have hz1 : zOverlap (straddleBoxAt (-pen)) ⟨⟨-1, -1, -1⟩, ⟨0, 0, 0⟩⟩
      = 3/10 := by
    show min ((3/10 : ℚ) - (-1)) (0 - (-3/10)) = 3/10
    norm_num
  have hz2 : zOverlap (straddleBoxAt (-pen)) ⟨⟨0, -1, 0⟩, ⟨1, 0, 1⟩⟩
      = 3/10 := by
    show min ((3/10 : ℚ) - 0) (1 - (-3/10)) = 3/10
    norm_num
  have hxA : xOverlap (straddleBoxAt (-pen)) ⟨⟨-1, -1, 0⟩, ⟨0, 0, 1⟩⟩
      = 3/10 := by
    show min ((3/10 : ℚ) - (-1)) (0 - (-3/10)) = 3/10
    norm_num
  have hzA : zOverlap (straddleBoxAt (-pen)) ⟨⟨-1, -1, 0⟩, ⟨0, 0, 1⟩⟩
      = 3/10 := by
    show min ((3/10 : ℚ) - 0) (1 - (-3/10)) = 3/10
    norm_num
  have hxB : xOverlap (straddleBoxAt (-pen)) ⟨⟨0, -1, -1⟩, ⟨1, 0, 0⟩⟩
      = 3/10 := by
    show min ((3/10 : ℚ) - 0) (1 - (-3/10)) = 3/10
    norm_num
  have hzB : zOverlap (straddleBoxAt (-pen)) ⟨⟨0, -1, -1⟩, ⟨1, 0, 0⟩⟩
      = 3/10 := by
    show min ((3/10 : ℚ) - (-1)) (0 - (-3/10)) = 3/10
    norm_num
  have hr1 := hcrv (-1, -1, -1) ⟨⟨-1, -1, -1⟩, ⟨0, 0, 0⟩⟩ hx1 hz1 rfl rfl
  have hr2 := hcrv (-1, -1, 0) ⟨⟨-1, -1, 0⟩, ⟨0, 0, 1⟩⟩ hxA hzA rfl rfl
  have hr3 := hcrv (0, -1, -1) ⟨⟨0, -1, -1⟩, ⟨1, 0, 0⟩⟩ hxB hzB rfl rfl
  have hr4 := hcrv (0, -1, 0) ⟨⟨0, -1, 0⟩, ⟨1, 0, 1⟩⟩ hx2 hz2 rfl rfl
  unfold resolveCollisions
  rw [straddle_scan pen h0 h1, if_neg (by simp)]
  simp only [List.foldl_cons, List.foldl_nil, hr1, hr2, hr3, hr4,
    vec3_add_def]
  norm_num [straddleBoxAt, Vec3.mk.injEq, ResolveResult.mk.injEq, h0,
    abs_of_pos h0]
  ring

/-- Claim C10: boxes that touch without overlapping in volume — sharing a
face, edge or corner — do not collide under the strict-inequality test, and
consequently an agent box resting exactly on the top face of the flat floor
yields an empty collision list and `resolveCollisions` passes its position
through with `colliding = false` and `onGround = false`. -/
theorem c10_touching_no_collision :
    (∀ b1 b2 : Box,
      (b1.max.x = b2.min.x ∨ b2.max.x = b1.min.x ∨
        b1.max.y = b2.min.y ∨ b2.max.y = b1.min.y ∨
        b1.max.z = b2.min.z ∨ b2.max.z = b1.min.z) →
      checkBoxCollision b1 b2 = false) ∧
    checkBlockCollisions floorState (alignedBoxAt 0) = [] ∧
    resolveCollisions floorState (alignedBoxAt 0) ⟨0, -1, 0⟩ =
      ⟨⟨1/2, 0, 1/2⟩, false, false⟩ := by
  refine ⟨?_, ?_, ?_⟩
  · intro b1 b2 h
    apply checkBoxCollision_sep
    rcases h with h | h | h | h | h | h
    · exact Or.inl h.le
    · exact Or.inr (Or.inl h.le)
    · exact Or.inr (Or.inr (Or.inl h.le))
    · exact Or.inr (Or.inr (Or.inr (Or.inl h.le)))
    · exact Or.inr (Or.inr (Or.inr (Or.inr (Or.inl h.le))))
    · exact Or.inr (Or.inr (Or.inr (Or.inr (Or.inr h.le))))
  · exact floor_scan_above (alignedBoxAt 0) (by norm_num [alignedBoxAt])
  · rw [resolve_no_collision (alignedBoxAt 0) _ (by norm_num [alignedBoxAt])]
    norm_num [alignedBoxAt]

/-- Witness for C10: two unit cubes sharing the face `x = 1` do not
collide. -/
theorem c10_touching_no_collision_witness :
    checkBoxCollision ⟨⟨0, 0, 0⟩, ⟨1, 1, 1⟩⟩ ⟨⟨1, 0, 0⟩, ⟨2, 1, 1⟩⟩ = false :=
  c10_touching_no_collision.1 ⟨⟨0, 0, 0⟩, ⟨1, 1, 1⟩⟩ ⟨⟨1, 0, 0⟩, ⟨2, 1, 1⟩⟩
    (Or.inl rfl)

/-- Claim C5 (amended): for an agent box aligned within a single block
column, one resolution against the flat floor with penetration
`pen < 4/5` lands the box EXACTLY on the floor's top surface with
`onGround = true`, and the iterated constant-velocity drop (`velocity
(0, -g, 0)`, the caller zeroing vertical velocity on the landing
transition) is from then on a fixpoint: every later iterate reports the
floor top exactly with `onGround = true`.  (`resolveCollisions` itself
never touches the velocity argument.)  Boxes straddling several floor
blocks violate this — see the counterexample. -/
theorem c5_aligned_settling (g pen : ℚ) (hp0 : 0 < pen) (hp1 : pen < 4/5)
    (hg0 : 0 < g) (hg1 : g < 4/5) (n : ℕ) (hn : 1 ≤ n) (b : Bool) (v : Vec3) :
    resolveCollisions floorState (alignedBoxAt (-pen)) v =
      ⟨⟨1/2, 0, 1/2⟩, true, true⟩ ∧
    (dropStep g)^[n] (0, b) = (0, true) := by
  have hstep : ∀ b' : Bool, dropStep g (0, b') = (0, true) := by
    intro b'
    have e : ((0 : ℚ), b').1 - g = -g := by norm_num
    unfold dropStep
    rw [e, aligned_resolve g hg0 hg1]
  refine ⟨aligned_resolve pen hp0 hp1 v, ?_⟩
  obtain ⟨m, rfl⟩ := Nat.exists_eq_add_of_le hn
  clear hn
  induction m with
  | zero => exact hstep b
  | succ k ih =>
      rw [show 1 + (k + 1) = (1 + k) + 1 by omega,
        Function.iterate_succ_apply', ih]
      exact hstep true

/-- Witness for C5 (amended) at `pen = g = 1/2`, one iteration. -/
theorem c5_aligned_settling_witness :
    resolveCollisions floorState (alignedBoxAt (-(1/2))) ⟨0, -(1/2), 0⟩ =
      ⟨⟨1/2, 0, 1/2⟩, true, true⟩ ∧
    (dropStep (1/2))^[1] ((0 : ℚ), false) = (0, true) :=
  c5_aligned_settling (1/2) (1/2) (by norm_num) (by norm_num) (by norm_num)
    (by norm_num) 1 (by norm_num) false ⟨0, -(1/2), 0⟩

/-- Counterexample to claim C5 as stated: the agent box straddling the four
floor blocks around the origin, dropped with constant velocity `(0, -1/20,
0)`, does NOT converge to the floor top: the resolution accumulates one
correction per colliding block, so from exact contact one step lands at
`y = 3/20` — strictly above the floor top `0` — and four steps later the
orbit returns to `(0, false)`: a period-4 cycle in which `onGround` keeps
reverting to `false` and `y` keeps leaving the floor top. -/
theorem c5_counterexample :
    straddleStep (1/20) (0, false) = (3/20, true) ∧
    straddleStep (1/20) (straddleStep (1/20) (straddleStep (1/20)
      (straddleStep (1/20) (0, false)))) = (0, false) ∧
    ((3 : ℚ)/20) ≠ 0 := by
  have hcol : ∀ b : Bool, straddleStep (1/20) (0, b) = (3/20, true) := by
    intro b
    have e : ((0 : ℚ), b).1 - 1/20 = -(1/20) := by norm_num
    unfold straddleStep
    rw [e, straddle_resolve (1/20) (by norm_num) (by norm_num)]
    norm_num
  have hpass : ∀ (y : ℚ) (b : Bool), (0 : ℚ) ≤ y - 1/20 →
      straddleStep (1/20) (y, b) = (y - 1/20, false) := by
    intro y b h
    unfold straddleStep
    rw [resolve_no_collision _ _
      (show (0 : ℚ) ≤ (straddleBoxAt ((y, b).1 - 1/20)).min.y from h)]
    rfl
  refine ⟨hcol false, ?_, by norm_num⟩
  rw [hcol false, hpass (3/20) true (by norm_num),
    show (3 : ℚ)/20 - 1/20 = 1/10 by norm_num,
    hpass (1/10) false (by norm_num),
    show (1 : ℚ)/10 - 1/20 = 1/20 by norm_num,
    hpass (1/20) false (by norm_num),
    show (1 : ℚ)/20 - 1/20 = 0 by norm_num]
